import Mathlib

/-!
Verification of the reactive project session layer of next-swc
(`packages/next-swc/crates/napi/src/next_api/project.rs` and
`packages/next-swc/crates/next-dev/src/lib.rs`), as a shallow embedding.

Version tokens, endpoint handles and listeners are opaque values in the
source (engine-internal `Vc` handles); they are embedded as `Nat`.
Issue payloads are embedded as `String`.
-/

namespace NextApi

/-- Issues collected during a compute step (`get_issues`); payload opaque here. -/
abbrev Issue := String

/-- Embeds `turbopack_binding::…::core::version::Update`
(`Update::None`, `Update::Total(TotalUpdate { to })`,
`Update::Partial(PartialUpdate { to, instruction })`).
The `Partial` variant is named `part` here; `to` is the opaque version
token, `instruction` the opaque delta payload. -/
inductive Update where
  | none
  | total (toVersion : Nat)
  | part (toVersion : Nat) (instruction : String)
  deriving DecidableEq, Repr

/-- Embeds `ecmascript_hmr_protocol::ResourceIdentifier` as built at
project.rs lines 415-418: `ResourceIdentifier { path: identifier, headers: None }`. -/
structure ResourceIdentifier where
  path : String
  headers : Option (List (String × String))
  deriving DecidableEq, Repr

/-- Embeds `ClientUpdateInstruction` as produced by its three constructor
calls used in `project_hmr_events` (`restart`, `partial` — named `part`
here — and `issues`), each carrying the resource identifier and the
collected issues; `part` additionally carries the delta instruction. -/
inductive ClientUpdateInstruction where
  | restart (resource : ResourceIdentifier) (issues : List Issue)
  | part (resource : ResourceIdentifier) (instruction : String) (issues : List Issue)
  | issues (resource : ResourceIdentifier) (issues : List Issue)
  deriving DecidableEq, Repr

/-- The state mutation of the compute step of `project_hmr_events`
(project.rs lines 390-398): `Update::None` leaves the session version
state untouched; `Total` and `Partial` set it to `to`. -/
def hmrComputeState (state : Option Nat) (update : Update) : Option Nat :=
  match update with
  | Update.none => state
  | Update.total toVersion => some toVersion
  | Update.part toVersion _ => some toVersion

/-- The delivery-step classification of `project_hmr_events`
(project.rs lines 415-427): `Total` becomes a restart instruction,
`Partial` a partial instruction carrying its delta, `None` an
issues-only instruction. -/
def hmrDeliver (identifier : String) (issues : List Issue) (update : Update) :
    ClientUpdateInstruction :=
  let resource : ResourceIdentifier := { path := identifier, headers := Option.none }
  match update with
  | Update.total _ => ClientUpdateInstruction.restart resource issues
  | Update.part _ instruction => ClientUpdateInstruction.part resource instruction issues
  | Update.none => ClientUpdateInstruction.issues resource issues

/-! ### Cycle traces (ordering of state mutation versus delivery) -/

/-- Observable events of one HMR subscription cycle. -/
inductive HmrEvent where
  | readUpdate
  | setState (toVersion : Nat)
  | deliver (instruction : ClientUpdateInstruction)
  deriving DecidableEq, Repr

/-- Event trace of the compute closure of `project_hmr_events`
(project.rs lines 382-399): the strongly-consistent read of the update,
then `state.set(to)` for the `Total` and `Partial` arms. -/
def hmrComputeTrace (update : Update) : List HmrEvent :=
  HmrEvent.readUpdate ::
    (match update with
     | Update.none => []
     | Update.total toVersion => [HmrEvent.setState toVersion]
     | Update.part toVersion _ => [HmrEvent.setState toVersion])

/-- Modelled from the spec: the subscription driver (`subscribe` in
`next_api/utils.rs`, not part of the sources here) runs the compute step
to completion and then hands the produced value to the delivery step
("1. Run the compute step once … 2. Deliver the result."). One cycle's
trace is therefore the compute trace followed by the delivery event. -/
def hmrCycleTrace (identifier : String) (issues : List Issue) (update : Update) :
    List HmrEvent :=
  hmrComputeTrace update ++ [HmrEvent.deliver (hmrDeliver identifier issues update)]

/-- Recognizes `state.set` events. -/
def isSetEvent : HmrEvent → Bool
  | HmrEvent.setState _ => true
  | _ => false

/-- Recognizes delivery events. -/
def isDeliverEvent : HmrEvent → Bool
  | HmrEvent.deliver _ => true
  | _ => false

/-- The ordering property asserted by the spec sentence "updated after
each successful delivery": every `state.set` event of a cycle occurs
strictly after the delivery event. -/
def stateSetAfterDelivery (t : List HmrEvent) : Prop :=
  ∀ i j, t.findIdx? isSetEvent = some i → t.findIdx? isDeliverEvent = some j → j < i

/-! ### Session version table -/

/-- Session handles: each call to `project_hmr_events` creates a fresh
`TransientInstance::new(())` (project.rs line 372); embedded as an
allocation counter handing out distinct identifiers. -/
abbrev Session := Nat

/-- Fresh-session allocation: returns the new session and the next counter. -/
def newSession (counter : Nat) : Session × Nat :=
  (counter, counter + 1)

/-- Modelled from the spec: the per-(session, identifier) version table
behind `hmr_version_state` (`next_api` crate, not part of the sources
here): "maintain, per (subscriber session, resource identifier) pair,
the last version token delivered"; `get_or_create` is keyed by both. -/
def VersionTable := Session × String → Option Nat

/-- Applying one HMR cycle's state mutation (`hmrComputeState`) to the
table entry of one (session, identifier) pair, leaving all other
entries untouched. -/
def applyHmrUpdate (t : VersionTable) (s : Session) (identifier : String)
    (update : Update) : VersionTable :=
  fun k =>
    if k = (s, identifier) then hmrComputeState (t k) update else t k

/-! ## C1 -/

/-- C1: the compute step of an HMR subscription cycle classifies the
strongly-consistent `Update` value as follows: `Update::None` yields an
issues-only instruction and leaves the session version state unmodified;
`Update::Total { to }` sets the version state to `to` and yields a
restart instruction; `Update::Partial { to, instruction }` sets the
version state to `to` and yields a partial instruction carrying that
delta. -/
theorem hmr_update_classification (state : Option Nat) (u : Update) :
    (u = Update.none → hmrComputeState state u = state ∧
      ∀ id issues, hmrDeliver id issues u =
        ClientUpdateInstruction.issues { path := id, headers := Option.none } issues) ∧
    (∀ v, u = Update.total v → hmrComputeState state u = some v ∧
      ∀ id issues, hmrDeliver id issues u =
        ClientUpdateInstruction.restart { path := id, headers := Option.none } issues) ∧
    (∀ v instr, u = Update.part v instr → hmrComputeState state u = some v ∧
      ∀ id issues, hmrDeliver id issues u =
        ClientUpdateInstruction.part { path := id, headers := Option.none } instr issues) := by
  refine ⟨?_, ?_, ?_⟩
  · rintro rfl
    exact ⟨rfl, fun _ _ => rfl⟩
  · rintro v rfl
    exact ⟨rfl, fun _ _ => rfl⟩
  · rintro v instr rfl
    exact ⟨rfl, fun _ _ => rfl⟩

/-- Witness for C1 at a concrete `Total` update. -/
theorem hmr_update_classification_witness :
    hmrComputeState (some 5) (Update.total 7) = some 7 ∧
    hmrDeliver "app/page" [] (Update.total 7) =
      ClientUpdateInstruction.restart { path := "app/page", headers := Option.none } [] := by
  have h := (hmr_update_classification (some 5) (Update.total 7)).2.1 7 rfl
  exact ⟨h.1, h.2 "app/page" []⟩

/-! ## C2 -/

/-- C2 counterexample: for a concrete `Total` cycle the `state.set`
event sits at index 1 of the cycle trace and the delivery event at
index 2, so the version state is advanced before — not after — the
delivery step; the claimed ordering is false. -/
theorem hmr_state_set_before_delivery_cex :
    ¬ stateSetAfterDelivery (hmrCycleTrace "app/page" [] (Update.total 1)) := by
  intro h
  exact absurd (h 1 2 rfl rfl) (by decide)

/-- C2 amended: for every HMR subscription cycle whose update is `Total`
or `Partial`, the `SessionVersionState` is updated during the compute
step, strictly before the cycle's result is delivered to the sink. -/
theorem hmr_state_set_in_compute_step (identifier : String) (issues : List Issue)
    (u : Update) (h : u ≠ Update.none) :
    ∃ i j, (hmrCycleTrace identifier issues u).findIdx? isSetEvent = some i ∧
      (hmrCycleTrace identifier issues u).findIdx? isDeliverEvent = some j ∧ i < j := by
  cases u with
  | none => exact absurd rfl h
  | total toVersion => exact ⟨1, 2, rfl, rfl, by decide⟩
  | part toVersion instr => exact ⟨1, 2, rfl, rfl, by decide⟩

/-- Witness for the amended C2 at a concrete `Partial` cycle. -/
theorem hmr_state_set_in_compute_step_witness :
    ∃ i j, (hmrCycleTrace "app/page" [] (Update.part 3 "delta")).findIdx? isSetEvent = some i ∧
      (hmrCycleTrace "app/page" [] (Update.part 3 "delta")).findIdx? isDeliverEvent = some j ∧
      i < j :=
  hmr_state_set_in_compute_step "app/page" [] (Update.part 3 "delta") (by decide)

/-! ## C3 -/

/-- C3: successive subscriptions always allocate distinct fresh
sessions, and for any two distinct sessions `s1 ≠ s2` — in either
allocation order, adjacent or not — applying a `Partial` update's state
mutation under `s1`'s key leaves `s2`'s version-table entry for the same
identifier unchanged. -/
theorem session_version_state_isolation (t : VersionTable) (s1 s2 : Session)
    (identifier : String) (v : Nat) (instr : String) (h : s1 ≠ s2) :
    (∀ counter, (newSession counter).1 ≠ (newSession (newSession counter).2).1) ∧
    applyHmrUpdate t s1 identifier (Update.part v instr) (s2, identifier)
      = t (s2, identifier) := by
  constructor
  · intro counter
    show counter ≠ counter + 1
    omega
  · have hne : ((s2, identifier) : Session × String) ≠ (s1, identifier) := by
      intro hcontra
      exact h (congrArg Prod.fst hcontra).symm
    simp [applyHmrUpdate, hne]

/-- Concrete version table for the C3 witness: session 1 already holds
version 9 for every identifier, other sessions hold nothing. -/
def tableW : VersionTable := fun k => if k.1 = 1 then some 9 else Option.none

/-- Witness for C3: a `Partial` delivered to session 0 leaves session
1's entry untouched (here session 1 was allocated after session 0). -/
theorem session_version_state_isolation_witness :
    (∀ counter, (newSession counter).1 ≠ (newSession (newSession counter).2).1) ∧
    applyHmrUpdate tableW 0 "app/page" (Update.part 4 "delta") (1, "app/page")
      = tableW (1, "app/page") :=
  session_version_state_isolation tableW 0 1 "app/page" 4 "delta" (by decide)

end NextApi

namespace NextDev

/-- Embeds `std::io::ErrorKind` (only the kinds the retry check can
distinguish matter: `AddrInUse` versus anything else). -/
inductive IoErrorKind where
  | addrInUse
  | permissionDenied
  | other (description : String)
  deriving DecidableEq, Repr

/-- Embeds the `anyhow::Error` returned by `DevServer::listen`: a message
plus the result of `e.source().and_then(|e| e.downcast_ref::<std::io::Error>())`
— `some kind` when the source exists and is an `std::io::Error`,
`none` otherwise. -/
structure ListenError where
  message : String
  ioSource : Option IoErrorKind
  deriving DecidableEq, Repr

/-- The retry test of `find_port` (lib.rs lines 196-202):
`e.source().and_then(|e| e.downcast_ref::<std::io::Error>().map(|e| e.kind() == AddrInUse)).unwrap_or(false)`. -/
def shouldRetryError (e : ListenError) : Bool :=
  (e.ioSource.map (fun k => k == IoErrorKind.addrInUse)).getD false

/-- The `loop` body of `NextDevServerBuilder::find_port` (lib.rs lines
185-218), unrolled on the remaining retry budget
`remaining = max_attempts - 1 - attempts`; `currentPort = port + attempts`.
The environment is `listen : Nat → Except ListenError Nat` (the listener
a successful `DevServer::listen` returns is embedded as its port handle).
Returns `none` when the u16 computation `port + attempts` is not
representable (checked-arithmetic model of the overflow panic), else the
final `listen_result` paired with the number of retry notices printed. -/
def findPortGo (allowRetry : Bool) (listen : Nat → Except ListenError Nat) :
    Nat → Nat → Option (Except ListenError Nat × Nat)
  | currentPort, 0 =>
    if currentPort > 65535 then Option.none
    else
      match listen currentPort with
      | Except.ok l => some (Except.ok l, 0)
      | Except.error e => some (Except.error e, 0)
  | currentPort, remaining + 1 =>
    if currentPort > 65535 then Option.none
    else
      match listen currentPort with
      | Except.ok l => some (Except.ok l, 0)
      | Except.error e =>
        if allowRetry && shouldRetryError e then
          match findPortGo allowRetry listen (currentPort + 1) remaining with
          | some (r, n) => some (r, n + 1)
          | Option.none => Option.none
        else some (Except.error e, 0)

/-- Embeds `NextDevServerBuilder::find_port(host, port, max_attempts)`
(lib.rs lines 182-219) with `self.allow_retry` explicit. The first
statement `let max_attempts = max_attempts - 1;` is u16 subtraction,
modelled checked: `max_attempts = 0` underflows before any bind attempt
and yields `none`. -/
def find_port (allowRetry : Bool) (listen : Nat → Except ListenError Nat)
    (port maxAttempts : Nat) : Option (Except ListenError Nat × Nat) :=
  if maxAttempts = 0 then Option.none
  else findPortGo allowRetry listen port (maxAttempts - 1)

/-- Helper: when every port in the window fails with a retryable
(address-already-in-use) error, the loop walks the whole window and
returns the last bind error unchanged, one retry notice per step. -/
theorem findPortGo_exhaust (listen : Nat → Except ListenError Nat) :
    ∀ remaining currentPort,
      (∀ i, i ≤ remaining → ∃ e, listen (currentPort + i) = Except.error e ∧
        shouldRetryError e = true) →
      currentPort + remaining ≤ 65535 →
      ∃ e, listen (currentPort + remaining) = Except.error e ∧
        findPortGo true listen currentPort remaining = some (Except.error e, remaining) := by
  intro remaining
  induction remaining with
  | zero =>
    intro currentPort herr hle
    obtain ⟨e, he, _⟩ := herr 0 (Nat.le_refl 0)
    refine ⟨e, he, ?_⟩
    simp only [findPortGo]
    rw [if_neg (by omega)]
    simp only [Nat.add_zero] at he
    rw [he]
  | succ r ih =>
    intro currentPort herr hle
    obtain ⟨e0, he0, hr0⟩ := herr 0 (Nat.zero_le _)
    simp only [Nat.add_zero] at he0
    have herr' : ∀ i, i ≤ r → ∃ e, listen (currentPort + 1 + i) = Except.error e ∧
        shouldRetryError e = true := by
      intro i hi
      have := herr (i + 1) (by omega)
      simpa [Nat.add_comm, Nat.add_assoc, Nat.add_left_comm] using this
    obtain ⟨e, he, hgo⟩ := ih (currentPort + 1) herr' (by omega)
    refine ⟨e, by simpa [Nat.add_comm, Nat.add_assoc, Nat.add_left_comm] using he, ?_⟩
    simp only [findPortGo]
    rw [if_neg (by omega), he0]
    simp [hr0, hgo]

/-! ## C4 -/

/-- C4: with retry enabled and `max_attempts = 3`, when binding `P` and
`P + 1` fails with address-already-in-use and binding `P + 2` succeeds,
`find_port` returns the listener bound to `P + 2` after exactly two
logged retries; and with `max_attempts = 1`, an occupied `P` returns the
bind error immediately with zero retries. -/
theorem find_port_scenarios (listen : Nat → Except ListenError Nat) (P : Nat)
    (e1 e2 : ListenError) (l : Nat) (hP : P + 2 ≤ 65535)
    (h0 : listen P = Except.error e1) (h0r : shouldRetryError e1 = true)
    (h1 : listen (P + 1) = Except.error e2) (h1r : shouldRetryError e2 = true)
    (h2 : listen (P + 2) = Except.ok l) :
    find_port true listen P 3 = some (Except.ok l, 2) ∧
    ∀ (allowRetry : Bool) (listen2 : Nat → Except ListenError Nat) (e : ListenError),
      listen2 P = Except.error e → P ≤ 65535 →
      find_port allowRetry listen2 P 1 = some (Except.error e, 0) := by
  constructor
  · simp only [find_port]
    rw [if_neg (by omega)]
    show findPortGo true listen P 2 = some (Except.ok l, 2)
    simp only [findPortGo]
    rw [if_neg (by omega), h0]
    simp only [h0r, Bool.and_self, if_true]
    rw [if_neg (by omega), h1]
    simp only [h1r, Bool.and_self, if_true]
    rw [if_neg (by omega)]
    have : P + 1 + 1 = P + 2 := by omega
    rw [this, h2]
  · intro allowRetry listen2 e he hle
    simp only [find_port]
    rw [if_neg (by omega)]
    show findPortGo allowRetry listen2 P 0 = some (Except.error e, 0)
    simp only [findPortGo]
    rw [if_neg (by omega), he]

/-- A concrete address-already-in-use bind error. -/
def addrInUseError : ListenError :=
  { message := "binding failed", ioSource := some IoErrorKind.addrInUse }

/-- A concrete permission-denied bind error. -/
def deniedError : ListenError :=
  { message := "binding failed", ioSource := some IoErrorKind.permissionDenied }

/-- Concrete environment: ports 3000 and 3001 occupied, everything else free. -/
def listenBusyTwo : Nat → Except ListenError Nat := fun p =>
  if p = 3000 ∨ p = 3001 then Except.error addrInUseError else Except.ok p

/-- Witness for C4 on the concrete two-ports-busy environment. -/
theorem find_port_scenarios_witness :
    find_port true listenBusyTwo 3000 3 = some (Except.ok 3002, 2) ∧
    find_port true listenBusyTwo 3000 1 = some (Except.error addrInUseError, 0) := by
  have h := find_port_scenarios listenBusyTwo 3000 addrInUseError addrInUseError
    3002 (by omega) rfl rfl rfl rfl rfl
  exact ⟨h.1, h.2 true listenBusyTwo _ rfl (by omega)⟩

/-- Helper: a non-retryable failure reached after a prefix of retryable
failures ends the scan there: the loop returns that error unchanged with
one retry notice per prefix step, no matter how much budget remains. -/
theorem findPortGo_fatal_mid (listen : Nat → Except ListenError Nat) :
    ∀ i remaining currentPort e, i ≤ remaining →
      (∀ j, j < i → ∃ ej, listen (currentPort + j) = Except.error ej ∧
        shouldRetryError ej = true) →
      listen (currentPort + i) = Except.error e → shouldRetryError e = false →
      currentPort + i ≤ 65535 →
      findPortGo true listen currentPort remaining = some (Except.error e, i) := by
  intro i
  induction i with
  | zero =>
    intro remaining currentPort e _ _ he hre hle
    rw [Nat.add_zero] at he hle
    cases remaining with
    | zero =>
      simp only [findPortGo]
      rw [if_neg (by omega), he]
    | succ r =>
      simp only [findPortGo]
      rw [if_neg (by omega), he]
      simp [hre]
  | succ i' ih =>
    intro remaining currentPort e hle hpre he hre hbound
    obtain ⟨e0, he0, hr0⟩ := hpre 0 (Nat.succ_pos i')
    rw [Nat.add_zero] at he0
    cases remaining with
    | zero => omega
    | succ r =>
      have hrec := ih r (currentPort + 1) e (by omega)
        (fun j hj => by
          obtain ⟨ej, hej, hrj⟩ := hpre (j + 1) (by omega)
          refine ⟨ej, ?_, hrj⟩
          rwa [show currentPort + (j + 1) = currentPort + 1 + j by omega] at hej)
        (by rwa [show currentPort + (i' + 1) = currentPort + 1 + i' by omega] at he)
        hre (by omega)
      simp only [findPortGo]
      rw [if_neg (by omega), he0]
      simp [hr0, hrec]

/-! ## C5 -/

/-- C5: for every bind failure encountered anywhere in the scan, a retry
happens only when retry is enabled and the failure's underlying cause is
address-already-in-use. With retry disabled, the first failure — of any
kind — is returned with zero retries; with retry enabled, a
non-retryable failure reached at any position `i` (after `i` retryable
failures) ends the scan, returning that error unchanged with exactly `i`
logged retries; and when every port of the window fails with a
retryable error, the window is exhausted and the last bind error is
returned unchanged. -/
theorem find_port_retry_policy (listen : Nat → Except ListenError Nat)
    (P maxAttempts : Nat) (hmax : 1 ≤ maxAttempts) :
    (∀ e, listen P = Except.error e → P ≤ 65535 →
      find_port false listen P maxAttempts = some (Except.error e, 0)) ∧
    (∀ i e, i < maxAttempts →
      (∀ j, j < i → ∃ ej, listen (P + j) = Except.error ej ∧
        shouldRetryError ej = true) →
      listen (P + i) = Except.error e → shouldRetryError e = false →
      P + i ≤ 65535 →
      find_port true listen P maxAttempts = some (Except.error e, i)) ∧
    ((∀ i, i < maxAttempts → ∃ e, listen (P + i) = Except.error e ∧
        shouldRetryError e = true) →
      P + maxAttempts ≤ 65536 →
      ∃ e, listen (P + (maxAttempts - 1)) = Except.error e ∧
        find_port true listen P maxAttempts =
          some (Except.error e, maxAttempts - 1)) := by
  refine ⟨?_, ?_, ?_⟩
  · intro e he hle
    simp only [find_port]
    rw [if_neg (by omega)]
    cases maxAttempts - 1 with
    | zero =>
      simp only [findPortGo]
      rw [if_neg (by omega), he]
    | succ r =>
      simp only [findPortGo]
      rw [if_neg (by omega), he]
      simp
  · intro i e hi hpre he hre hle
    simp only [find_port]
    rw [if_neg (by omega)]
    exact findPortGo_fatal_mid listen i (maxAttempts - 1) P e (by omega) hpre he hre hle
  · intro herr hle
    obtain ⟨e, he, hgo⟩ := findPortGo_exhaust listen (maxAttempts - 1) P
      (fun i hi => herr i (by omega)) (by omega)
    refine ⟨e, he, ?_⟩
    simp only [find_port]
    rw [if_neg (by omega)]
    exact hgo

/-- Concrete environment: every port occupied with address-in-use. -/
def listenAllBusy : Nat → Except ListenError Nat := fun _ =>
  Except.error addrInUseError

/-- Concrete environment: binding fails with permission denied. -/
def listenDenied : Nat → Except ListenError Nat := fun _ =>
  Except.error deniedError

/-- Concrete environment: address-in-use at port 3000, permission denied
at port 3001, everything else free. -/
def listenMixed : Nat → Except ListenError Nat := fun p =>
  if p = 3000 then Except.error addrInUseError
  else if p = 3001 then Except.error deniedError
  else Except.ok p

/-- Witness for C5: with retry disabled the first failure is returned
untouched; a permission-denied failure hit mid-scan after one
address-in-use retry ends the scan with one logged retry; and an
all-busy window is exhausted returning the last error. -/
theorem find_port_retry_policy_witness :
    find_port false listenDenied 3000 3 = some (Except.error deniedError, 0) ∧
    find_port true listenMixed 3000 10 = some (Except.error deniedError, 1) ∧
    ∃ e, listenAllBusy (3000 + (3 - 1)) = Except.error e ∧
      find_port true listenAllBusy 3000 3 = some (Except.error e, 3 - 1) := by
  refine ⟨?_, ?_, ?_⟩
  · exact (find_port_retry_policy listenDenied 3000 3 (by omega)).1 deniedError rfl (by omega)
  · exact (find_port_retry_policy listenMixed 3000 10 (by omega)).2.1 1 deniedError
      (by omega) (fun j hj => by interval_cases j; exact ⟨addrInUseError, rfl, rfl⟩)
      rfl rfl (by omega)
  · exact (find_port_retry_policy listenAllBusy 3000 3 (by omega)).2.2
      (fun i _ => ⟨addrInUseError, rfl, rfl⟩) (by omega)

/-! ## C10 -/

/-- C10: `find_port` evaluates the u16 subtraction `max_attempts - 1`
before any bind attempt, so `max_attempts = 0` underflows (the result is
not representable) for every environment; under the precondition
`max_attempts ≥ 1` that underflow branch is unreachable and the call
proceeds into the bind loop. -/
theorem find_port_underflow_guard (allowRetry : Bool)
    (listen : Nat → Except ListenError Nat) (port maxAttempts : Nat) :
    find_port allowRetry listen port 0 = Option.none ∧
    (1 ≤ maxAttempts →
      find_port allowRetry listen port maxAttempts =
        findPortGo allowRetry listen port (maxAttempts - 1)) := by
  constructor
  · simp [find_port]
  · intro h
    simp only [find_port]
    rw [if_neg (by omega)]

/-- Witness for C10 at concrete inputs. -/
theorem find_port_underflow_guard_witness :
    find_port true listenBusyTwo 3000 0 = Option.none ∧
    find_port true listenBusyTwo 3000 5 = findPortGo true listenBusyTwo 3000 4 :=
  ⟨(find_port_underflow_guard true listenBusyTwo 3000 5).1,
   (find_port_underflow_guard true listenBusyTwo 3000 5).2 (by omega)⟩

end NextDev

namespace NextApi

/-! ### Progress aggregator (`project_update_info_subscribe`) -/

/-- Embeds `napi::Status` as far as the loop distinguishes it
(`matches!(status, Status::Ok)`): `Ok` versus any failing status. -/
inductive NapiStatus where
  | ok
  | queueFull
  | closing
  | genericFailure
  deriving DecidableEq, Repr

/-- Display form of a status, for the logged message. -/
def napiStatusToString : NapiStatus → String
  | NapiStatus.ok => "Ok"
  | NapiStatus.queueFull => "QueueFull"
  | NapiStatus.closing => "Closing"
  | NapiStatus.genericFailure => "GenericFailure"

/-- Embeds `turbo_tasks::UpdateInfo` as delivered (duration in
milliseconds and task count, the two fields `NapiUpdateInfo` keeps). -/
structure UpdateInfo where
  duration : Nat
  tasks : Nat
  deriving DecidableEq, Repr

/-- The message built by the loop on a failing delivery:
`anyhow!("Error calling JS function: {}", status)`, printed via `eprintln!`. -/
def callErrorMessage (status : NapiStatus) : String :=
  "Error calling JS function: " ++ napiStatusToString status

/-- Observable outcome of running the aggregator loop for a bounded
number of iterations: the infos passed to the sink, the millisecond
durations passed to `get_or_wait_aggregated_update_info`, the messages
printed to stderr, and whether the loop has exited. The spawned task has
no other output channel: nothing is escalated to the caller. -/
structure AggRun where
  calls : List UpdateInfo
  waits : List Nat
  logged : List String
  finished : Bool
  deriving DecidableEq, Repr

/-- The `tokio::spawn` loop of `project_update_info_subscribe`
(project.rs lines 507-520), unrolled for `fuel` iterations starting at
iteration `n`. The environment supplies `infos k`, the value the engine
wait (called with `Duration::from_secs(1)`, i.e. 1000 ms) returns at
iteration `k`, and `sink k`, the `Status` of the threadsafe-function
call at iteration `k`. A non-`Ok` status logs the error and breaks;
otherwise the loop repeats. `finished = false` means the fuel ran out
with the loop still running. -/
def updateInfoLoop (infos : Nat → UpdateInfo) (sink : Nat → NapiStatus) :
    Nat → Nat → AggRun
  | _, 0 => { calls := [], waits := [], logged := [], finished := false }
  | n, fuel + 1 =>
    if sink n = NapiStatus.ok then
      { calls := infos n :: (updateInfoLoop infos sink (n + 1) fuel).calls,
        waits := 1000 :: (updateInfoLoop infos sink (n + 1) fuel).waits,
        logged := (updateInfoLoop infos sink (n + 1) fuel).logged,
        finished := (updateInfoLoop infos sink (n + 1) fuel).finished }
    else
      { calls := [infos n], waits := [1000],
        logged := [callErrorMessage (sink n)], finished := true }

/-- Helper: while every delivery returns `Ok` the loop never exits,
delivering once per iteration and passing the 1-second tick each time. -/
theorem updateInfoLoop_all_ok (infos : Nat → UpdateInfo) (sink : Nat → NapiStatus) :
    ∀ fuel n, (∀ k, k < fuel → sink (n + k) = NapiStatus.ok) →
      (updateInfoLoop infos sink n fuel).finished = false ∧
      (updateInfoLoop infos sink n fuel).calls.length = fuel ∧
      (updateInfoLoop infos sink n fuel).waits = List.replicate fuel 1000 ∧
      (updateInfoLoop infos sink n fuel).logged = [] := by
  intro fuel
  induction fuel with
  | zero => exact fun n _ => ⟨rfl, rfl, rfl, rfl⟩
  | succ f ih =>
    intro n h
    have h0 : sink n = NapiStatus.ok := by
      have := h 0 (Nat.succ_pos f)
      rwa [Nat.add_zero] at this
    have hrest := ih (n + 1) (fun k hk => by
      have := h (k + 1) (by omega)
      rwa [show n + (k + 1) = n + 1 + k by omega] at this)
    rw [updateInfoLoop, if_pos h0]
    refine ⟨hrest.1, ?_, ?_, hrest.2.2.2⟩
    · simp [hrest.2.1]
    · simp [hrest.2.2.1, List.replicate_succ]

/-- Helper: the first non-`Ok` delivery status exits the loop, with one
call per iteration up to and including the failing one, one logged
message, and nothing else. -/
theorem updateInfoLoop_first_fail (infos : Nat → UpdateInfo) (sink : Nat → NapiStatus) :
    ∀ fuel n k, k < fuel → sink (n + k) ≠ NapiStatus.ok →
      (∀ j, j < k → sink (n + j) = NapiStatus.ok) →
      (updateInfoLoop infos sink n fuel).finished = true ∧
      (updateInfoLoop infos sink n fuel).calls.length = k + 1 ∧
      (updateInfoLoop infos sink n fuel).waits = List.replicate (k + 1) 1000 ∧
      (updateInfoLoop infos sink n fuel).logged = [callErrorMessage (sink (n + k))] := by
  intro fuel
  induction fuel with
  | zero => intro n k hk; omega
  | succ f ih =>
    intro n k hk hfail hok
    cases k with
    | zero =>
      rw [Nat.add_zero] at hfail
      rw [updateInfoLoop, if_neg hfail]
      simp
    | succ k' =>
      have h0 : sink n = NapiStatus.ok := by
        have := hok 0 (Nat.succ_pos k')
        rwa [Nat.add_zero] at this
      have hrest := ih (n + 1) k' (by omega)
        (by rwa [show n + (k' + 1) = n + 1 + k' by omega] at hfail)
        (fun j hj => by
          have := hok (j + 1) (by omega)
          rwa [show n + (j + 1) = n + 1 + j by omega] at this)
      rw [updateInfoLoop, if_pos h0]
      refine ⟨hrest.1, ?_, ?_, ?_⟩
      · simp [hrest.2.1]
      · simp [hrest.2.2.1, List.replicate_succ]
      · have := hrest.2.2.2
        rw [show n + 1 + k' = n + (k' + 1) by omega] at this
        simpa using this

/-! ## C6 -/

/-- C6: the aggregator loop started by `project_update_info_subscribe`
repeats indefinitely — while every delivery returns `Ok` it never exits,
each iteration passing the 1-second (1000 ms) tick to the aggregated
update-info wait and delivering one `{duration, tasks}` value — and it
exits exactly at the first delivery whose status is not `Ok`, logging
that failure once; the spawned task has no other output channel, so the
failure is not escalated to the rest of the process. -/
theorem update_info_loop_behavior (infos : Nat → UpdateInfo) (sink : Nat → NapiStatus)
    (fuel k : Nat) :
    ((∀ j, j < fuel → sink j = NapiStatus.ok) →
      (updateInfoLoop infos sink 0 fuel).finished = false ∧
      (updateInfoLoop infos sink 0 fuel).calls.length = fuel ∧
      (updateInfoLoop infos sink 0 fuel).waits = List.replicate fuel 1000 ∧
      (updateInfoLoop infos sink 0 fuel).logged = []) ∧
    (k < fuel → sink k ≠ NapiStatus.ok → (∀ j, j < k → sink j = NapiStatus.ok) →
      (updateInfoLoop infos sink 0 fuel).finished = true ∧
      (updateInfoLoop infos sink 0 fuel).calls.length = k + 1 ∧
      (updateInfoLoop infos sink 0 fuel).waits = List.replicate (k + 1) 1000 ∧
      (updateInfoLoop infos sink 0 fuel).logged = [callErrorMessage (sink k)]) := by
  constructor
  · intro h
    exact updateInfoLoop_all_ok infos sink fuel 0 (fun j hj => by simpa using h j hj)
  · intro hk hfail hok
    have h := updateInfoLoop_first_fail infos sink fuel 0 k hk
      (by simpa using hfail) (fun j hj => by simpa using hok j hj)
    simpa using h

/-- Concrete update-info stream for the C6 witness. -/
def infosW : Nat → UpdateInfo := fun k => { duration := 100 * k, tasks := k + 1 }

/-- Concrete sink for the C6 witness: the third delivery fails. -/
def sinkW : Nat → NapiStatus := fun k =>
  if k < 2 then NapiStatus.ok else NapiStatus.closing

/-- Witness for C6: with the third delivery failing, a five-iteration
budget exits after three calls, three one-second waits and one logged
message. -/
theorem update_info_loop_behavior_witness :
    (updateInfoLoop infosW sinkW 0 5).finished = true ∧
    (updateInfoLoop infosW sinkW 0 5).calls.length = 2 + 1 ∧
    (updateInfoLoop infosW sinkW 0 5).waits = List.replicate (2 + 1) 1000 ∧
    (updateInfoLoop infosW sinkW 0 5).logged = [callErrorMessage (sinkW 2)] :=
  (update_info_loop_behavior infosW sinkW 5 2).2 (by omega) (by decide)
    (fun j hj => by interval_cases j <;> rfl)

/-! ### Project options (`project_new` / `project_update` configuration) -/

/-- Embeds `NapiEnvVar` (project.rs lines 46-50). -/
structure NapiEnvVar where
  name : String
  value : String
  deriving DecidableEq, Repr

/-- Embeds `NapiProjectOptions` (project.rs lines 52-79): the flat
option set accepted by `project_new` and `project_update`, including the
optional `dist_dir` (next.config's distDir). -/
structure NapiProjectOptions where
  root_path : String
  project_path : String
  dist_dir : Option String
  watch : Bool
  next_config : String
  js_config : String
  env : List NapiEnvVar
  server_addr : String
  deriving DecidableEq, Repr

/-- Embeds `next_api::project::ProjectOptions`, whose full field set is
pinned by the exhaustive struct literal of the `From` impl at
project.rs lines 87-103: root path, project path, watch flag, the two
config blobs, the env pairs and the server address — and nothing else. -/
structure ProjectOptions where
  root_path : String
  project_path : String
  watch : Bool
  next_config : String
  js_config : String
  env : List (String × String)
  server_addr : String
  deriving DecidableEq, Repr

/-- Embeds `impl From<NapiProjectOptions> for ProjectOptions`
(project.rs lines 87-103). Note that `val.dist_dir` is not read. -/
def projectOptionsFrom (val : NapiProjectOptions) : ProjectOptions :=
  { root_path := val.root_path
    project_path := val.project_path
    watch := val.watch
    next_config := val.next_config
    js_config := val.js_config
    env := val.env.map (fun v => (v.name, v.value))
    server_addr := val.server_addr }

/-- Concrete options with an output directory set, for the C7 counterexample. -/
def napiOptsWithDist : NapiProjectOptions :=
  { root_path := "/repo", project_path := "/repo/app", dist_dir := some "dist",
    watch := true, next_config := "nextConfig", js_config := "jsConfig",
    env := [{ name := "NODE_ENV", value := "development" }],
    server_addr := "127.0.0.1:3000" }

/-- The same options without an output directory. -/
def napiOptsNoDist : NapiProjectOptions :=
  { napiOptsWithDist with dist_dir := Option.none }

/-! ## C7 -/

/-- C7 counterexample: two option sets that differ only in the optional
output directory convert to the same `ProjectOptions` — the conversion
installed by `project_new` and `project_update` discards `dist_dir`, so
the configuration snapshot does not preserve the output-directory field. -/
theorem project_options_dist_dir_dropped_cex :
    projectOptionsFrom napiOptsWithDist = projectOptionsFrom napiOptsNoDist ∧
    napiOptsWithDist.dist_dir ≠ napiOptsNoDist.dist_dir := by
  exact ⟨rfl, by decide⟩

/-- C7 amended: the conversion from the flat option set to the
container's configuration preserves root path, project path, watch
flag, both serialized config blobs, the environment variables (as
name-value pairs) and the server address, but discards the optional
output directory: options differing only in `dist_dir` convert
identically (in `project_new`, `dist_dir` is only used to place the
trace log before the conversion). -/
theorem project_options_from_preserves_fields (val : NapiProjectOptions)
    (d : Option String) :
    (projectOptionsFrom val).root_path = val.root_path ∧
    (projectOptionsFrom val).project_path = val.project_path ∧
    (projectOptionsFrom val).watch = val.watch ∧
    (projectOptionsFrom val).next_config = val.next_config ∧
    (projectOptionsFrom val).js_config = val.js_config ∧
    (projectOptionsFrom val).env = val.env.map (fun v => (v.name, v.value)) ∧
    (projectOptionsFrom val).server_addr = val.server_addr ∧
    projectOptionsFrom { val with dist_dir := d } = projectOptionsFrom val :=
  ⟨rfl, rfl, rfl, rfl, rfl, rfl, rfl, rfl⟩

/-! ### Routes (`NapiRoute::from_route`) -/

/-- Embeds `next_api::route::Route`: the five route variants with their
endpoint handles (`Vc<Box<dyn Endpoint>>`, embedded as `Nat`). -/
inductive Route where
  | page (html_endpoint data_endpoint : Nat)
  | pageApi (endpoint : Nat)
  | appPage (html_endpoint rsc_endpoint : Nat)
  | appRoute (endpoint : Nat)
  | conflict
  deriving DecidableEq, Repr

/-- Embeds `NapiRoute` (project.rs lines 208-222): pathname, the route
type tag, and the four optional endpoint slots. -/
structure NapiRoute where
  pathname : String
  type : String
  endpoint : Option Nat
  html_endpoint : Option Nat
  rsc_endpoint : Option Nat
  data_endpoint : Option Nat
  deriving DecidableEq, Repr

/-- Embeds `#[derive(Default)]` on `NapiRoute`: empty strings and absent
endpoints. -/
def napiRouteDefault : NapiRoute :=
  { pathname := "", type := "", endpoint := Option.none, html_endpoint := Option.none,
    rsc_endpoint := Option.none, data_endpoint := Option.none }

/-- Embeds the `convert_endpoint` closure of `NapiRoute::from_route`:
wraps an endpoint handle into a present external handle. -/
def convert_endpoint (endpoint : Nat) : Option Nat :=
  some endpoint

/-- Embeds `NapiRoute::from_route` (project.rs lines 224-276): each
variant fills its tag and exactly its own endpoint slots over the
default (absent) fields. -/
def from_route (pathname : String) (value : Route) : NapiRoute :=
  match value with
  | Route.page html_endpoint data_endpoint =>
    { napiRouteDefault with
      pathname := pathname
      type := "page"
      html_endpoint := convert_endpoint html_endpoint
      data_endpoint := convert_endpoint data_endpoint }
  | Route.pageApi endpoint =>
    { napiRouteDefault with
      pathname := pathname
      type := "page-api"
      endpoint := convert_endpoint endpoint }
  | Route.appPage html_endpoint rsc_endpoint =>
    { napiRouteDefault with
      pathname := pathname
      type := "app-page"
      html_endpoint := convert_endpoint html_endpoint
      rsc_endpoint := convert_endpoint rsc_endpoint }
  | Route.appRoute endpoint =>
    { napiRouteDefault with
      pathname := pathname
      type := "app-route"
      endpoint := convert_endpoint endpoint }
  | Route.conflict =>
    { napiRouteDefault with
      pathname := pathname
      type := "conflict" }

/-! ## C8 -/

/-- C8: the conversion to the externally delivered route entry maps each
`Route` variant exhaustively to its tag and exactly its own endpoints:
`Page` yields "page" with html and data endpoints; `PageApi` yields
"page-api" with a single endpoint; `AppPage` yields "app-page" with
html and rsc endpoints; `AppRoute` yields "app-route" with a single
endpoint; `Conflict` yields "conflict" with no endpoints; every
endpoint slot not belonging to the variant is absent. -/
theorem napi_route_from_route_exhaustive (pathname : String) (h d e r : Nat) :
    from_route pathname (Route.page h d) =
      { pathname := pathname, type := "page", endpoint := Option.none,
        html_endpoint := some h, rsc_endpoint := Option.none, data_endpoint := some d } ∧
    from_route pathname (Route.pageApi e) =
      { pathname := pathname, type := "page-api", endpoint := some e,
        html_endpoint := Option.none, rsc_endpoint := Option.none,
        data_endpoint := Option.none } ∧
    from_route pathname (Route.appPage h r) =
      { pathname := pathname, type := "app-page", endpoint := Option.none,
        html_endpoint := some h, rsc_endpoint := some r, data_endpoint := Option.none } ∧
    from_route pathname (Route.appRoute e) =
      { pathname := pathname, type := "app-route", endpoint := some e,
        html_endpoint := Option.none, rsc_endpoint := Option.none,
        data_endpoint := Option.none } ∧
    from_route pathname Route.conflict =
      { pathname := pathname, type := "conflict", endpoint := Option.none,
        html_endpoint := Option.none, rsc_endpoint := Option.none,
        data_endpoint := Option.none } :=
  ⟨rfl, rfl, rfl, rfl, rfl⟩

/-! ### Error surfacing (`project_new` / `project_update`) -/

/-- Embeds `anyhow::Error`: a message with an optional chain of source
errors beneath it. -/
inductive AnyhowError where
  | leaf (message : String)
  | wrap (message : String) (source : AnyhowError)
  deriving DecidableEq, Repr

/-- Modelled from the spec: `PrettyPrintError` (turbopack core, not part
of the sources here) — engine-level evaluation errors are
"pretty-printed into a single human-readable string"; the chain is
flattened into one string. -/
def prettyPrintError : AnyhowError → String
  | AnyhowError.leaf m => m
  | AnyhowError.wrap m s => m ++ ": " ++ prettyPrintError s

/-- Embeds `napi::Error` as produced by `napi::Error::from_reason`: a
single reason string, no error-chain structure. -/
structure NapiError where
  reason : String
  deriving DecidableEq, Repr

/-- Embeds `napi::Error::from_reason`. -/
def napiErrorFromReason (reason : String) : NapiError :=
  { reason := reason }

/-- Embeds the result mapping of `project_new` (project.rs lines
172-179): the `run_once` outcome (resolved container handle, embedded
as `Nat`) with its error mapped through
`napi::Error::from_reason(PrettyPrintError(&e).to_string())`. -/
def project_new_result (runOnce : Except AnyhowError Nat) : Except NapiError Nat :=
  match runOnce with
  | Except.ok c => Except.ok c
  | Except.error e => Except.error (napiErrorFromReason (prettyPrintError e))

/-- Embeds the result mapping of `project_update` (project.rs lines
198-205), identical error handling with a unit payload. -/
def project_update_result (runOnce : Except AnyhowError Unit) : Except NapiError Unit :=
  match runOnce with
  | Except.ok u => Except.ok u
  | Except.error e => Except.error (napiErrorFromReason (prettyPrintError e))

/-! ## C9 -/

/-- C9: every failure surfaced by `project_new` and `project_update` to
the external caller is a single flattened string obtained by
pretty-printing the underlying error; the surfaced `NapiError` carries
only that reason string, so no internal error-chain structure crosses
the boundary. -/
theorem project_errors_flattened (r : Except AnyhowError Nat)
    (ru : Except AnyhowError Unit) (ne nu : NapiError) :
    (project_new_result r = Except.error ne →
      ∃ e, r = Except.error e ∧ ne = napiErrorFromReason (prettyPrintError e)) ∧
    (project_update_result ru = Except.error nu →
      ∃ e, ru = Except.error e ∧ nu = napiErrorFromReason (prettyPrintError e)) := by
  constructor
  · intro h
    cases r with
    | ok c => simp [project_new_result] at h
    | error e =>
      simp only [project_new_result] at h
      injection h with h'
      exact ⟨e, rfl, h'.symm⟩
  · intro h
    cases ru with
    | ok u => simp [project_update_result] at h
    | error e =>
      simp only [project_update_result] at h
      injection h with h'
      exact ⟨e, rfl, h'.symm⟩

/-- Concrete wrapped engine failure for the C9 witness. -/
def engineFailure : AnyhowError :=
  AnyhowError.wrap "failed to create project" (AnyhowError.leaf "engine initialization failed")

/-- Witness for C9 at a concrete two-link error chain. -/
theorem project_errors_flattened_witness :
    ∃ e, (Except.error engineFailure : Except AnyhowError Nat) = Except.error e ∧
      napiErrorFromReason (prettyPrintError engineFailure)
        = napiErrorFromReason (prettyPrintError e) :=
  (project_errors_flattened (Except.error engineFailure) (Except.ok ())
    (napiErrorFromReason (prettyPrintError engineFailure))
    (napiErrorFromReason "unused")).1 rfl

end NextApi
